import Mathlib

/-!
# Verification of the Raft leader-election core

Shallow embedding of the Raft consensus node from the course repository
(`Node`, `Statemachine` and their operations).  Pure state is modelled as a
Lean structure, the Go mutex-protected handlers become functions from the
node state (plus, for fan-outs, the list of peer replies) to a new state.
Side effects on the two timers are recorded as an ordered list of
`TimerCmd` events; a Go `panic` is modelled as `Option.none`.
-/

namespace Raft

/-- `State` represents the internal raft state (statemachine.go). -/
inductive State : Type
  | FOLLOWER
  | CANDIDATE
  | LEADER
deriving DecidableEq, Repr

open State

/-- The fixed transition table installed by `NewStatemachine` (statemachine.go).
In Go this is a per-instance map field that every constructor initialises to
the same literal, so it is embedded as a constant function. -/
def validTransitions : State → List State
  | FOLLOWER => [CANDIDATE]
  | CANDIDATE => [FOLLOWER, CANDIDATE, LEADER]
  | LEADER => [FOLLOWER]

/-- `Statemachine` encapsulates the current state (statemachine.go). -/
structure Statemachine : Type where
  current : State
deriving DecidableEq, Repr

/-- `isValid` from statemachine.go: linear search of the transition table. -/
def Statemachine.isValid (s : Statemachine) (next : State) : Bool :=
  (validTransitions s.current).contains next

/-- `Next` from statemachine.go: advance the state; an invalid transition
panics in Go, modelled as `none`. -/
def Statemachine.Next (s : Statemachine) (next : State) : Option Statemachine :=
  if s.isValid next then some { current := next } else none

/-- `Current` from statemachine.go. -/
def Statemachine.Current (s : Statemachine) : State :=
  s.current

/-- Modelled from the spec: the `Cluster` type is not among the provided
sources; per the spec the cluster view is the list of all member identities,
used to compute the quorum and to enumerate peers. -/
structure Cluster : Type where
  allNodes : List Int
deriving DecidableEq, Repr

/-- Modelled from the spec: `GetRemoteFollowers` returns the peer handles of
every member except the given node id ("peers(excludingId) -> ordered list
of remote node handles"). -/
def Cluster.GetRemoteFollowers (c : Cluster) (id : Int) : List Int :=
  c.allNodes.filter (fun x => x ≠ id)

/-- Timer side effects: the channel sends `electionTimer.resetC <- true`,
`electionTimer.stopC <- true`, `heartbeatTimer.resetC <- true`,
`heartbeatTimer.stopC <- true` of node.go, recorded in program order. -/
inductive TimerCmd : Type
  | electionReset
  | electionStop
  | heartbeatReset
  | heartbeatStop
deriving DecidableEq, Repr

/-- The mutable state of a `Node` (node.go).  The two timers are represented
by the `TimerCmd` events the handlers emit, and the replicated log (unused by
the election core) is omitted. -/
structure Node : Type where
  id : Int
  statemachine : Statemachine
  currentTerm : Int
  votedFor : Option Int
  cluster : Cluster
  stopped : Bool
deriving DecidableEq, Repr

/-- Modelled from the spec: `isLeader` helper (its file is not among the
provided sources) — the node's current role is LEADER. -/
def Node.isLeader (n : Node) : Bool :=
  n.statemachine.current = LEADER

/-- Modelled from the spec: `isNotLeader` helper — negation of `isLeader`. -/
def Node.isNotLeader (n : Node) : Bool :=
  !n.isLeader

/-- Modelled from the spec: `isCandidate` helper — the node's current role is
CANDIDATE. -/
def Node.isCandidate (n : Node) : Bool :=
  n.statemachine.current = CANDIDATE

/-- `switchToFollower` from node.go: a LEADER stops its heartbeat timer and
steps down, a CANDIDATE steps down, a FOLLOWER is left untouched.  Returns
the new node and the emitted timer events; `none` models a panic inside
`Statemachine.Next` (which cannot actually occur here, as the guards only
allow the legal transitions LEADER→FOLLOWER and CANDIDATE→FOLLOWER). -/
def Node.switchToFollower (n : Node) : Option (Node × List TimerCmd) :=
  if n.isLeader then
    match n.statemachine.Next FOLLOWER with
    | some sm => some ({ n with statemachine := sm }, [TimerCmd.heartbeatStop])
    | none => none
  else if n.isCandidate then
    match n.statemachine.Next FOLLOWER with
    | some sm => some ({ n with statemachine := sm }, [])
    | none => none
  else
    some (n, [])

/-- `switchToLeader` from node.go: CANDIDATE→LEADER, arm the heartbeat timer,
stop the election timer. -/
def Node.switchToLeader (n : Node) : Option (Node × List TimerCmd) :=
  match n.statemachine.Next LEADER with
  | some sm =>
      some ({ n with statemachine := sm },
            [TimerCmd.heartbeatReset, TimerCmd.electionStop])
  | none => none

/-- `Stop` from node.go: mark the node stopped, signal both timers to stop,
and force the role to FOLLOWER via `Statemachine.Next` (`none` = panic on an
illegal transition). -/
def Node.Stop (n : Node) : Option (Node × List TimerCmd) :=
  let n1 : Node := { n with stopped := true }
  match n1.statemachine.Next FOLLOWER with
  | some sm =>
      some ({ n1 with statemachine := sm },
            [TimerCmd.heartbeatStop, TimerCmd.electionStop])
  | none => none

/-- `executeElection` from node.go, with the concurrent `RequestVote` fan-out
replaced by the list of peer replies `(term, granted)` in peer order.  The
node first votes for itself; a reply term greater than `currentTerm` only
reaches the empty `// todo` branch, so the tally uses nothing but the grant
flags.  Returns the node as left by the fan-out and the `electionWon` flag
(`nbrOfVotes >= len(allNodes)/2 + 1`). -/
def Node.executeElection (n : Node) (replies : List (Int × Bool)) :
    Node × Bool :=
  let n1 : Node := { n with votedFor := some n.id }
  let votes : List Bool := replies.map Prod.snd
  let nbrOfVotes : Nat := votes.foldl (fun acc v => if v then acc + 1 else acc) 1
  let electionWon : Bool := decide (nbrOfVotes ≥ n1.cluster.allNodes.length / 2 + 1)
  (n1, electionWon)

/-- `startElectionProcess` from node.go: open a new term, become CANDIDATE,
clear `votedFor`, run the election; on a win switch to LEADER, otherwise fall
back to FOLLOWER and re-arm the election timer. -/
def Node.startElectionProcess (n : Node) (replies : List (Int × Bool)) :
    Option (Node × List TimerCmd) :=
  let n1 : Node := { n with currentTerm := n.currentTerm + 1 }
  match n1.statemachine.Next CANDIDATE with
  | none => none
  | some sm =>
    let n2 : Node := { n1 with statemachine := sm, votedFor := none }
    let res := n2.executeElection replies
    if res.2 then
      res.1.switchToLeader
    else
      match res.1.statemachine.Next FOLLOWER with
      | none => none
      | some sm2 =>
          some ({ res.1 with statemachine := sm2 }, [TimerCmd.electionReset])

/-- `electionTimeout` from node.go: no-op when stopped, panic when LEADER,
otherwise start the election process. -/
def Node.electionTimeout (n : Node) (replies : List (Int × Bool)) :
    Option (Node × List TimerCmd) :=
  if n.stopped then some (n, [])
  else if n.isLeader then none
  else n.startElectionProcess replies

/-- The reply loop of `heatbeatTimeout` (node.go): for each peer reply in
order, a reply term strictly greater than `currentTerm` triggers
`switchToFollower`; every other reply is ignored. -/
def Node.heartbeatReplyLoop (n : Node) (replies : List (Int × Bool))
    (cmds : List TimerCmd) : Option (Node × List TimerCmd) :=
  match replies with
  | [] => some (n, cmds)
  | r :: rest =>
    if n.currentTerm < r.1 then
      match n.switchToFollower with
      | some p => heartbeatReplyLoop p.1 rest (cmds ++ p.2)
      | none => none
    else
      heartbeatReplyLoop n rest cmds

/-- `heatbeatTimeout` from node.go (sic): no-op when stopped, panic when not
LEADER, otherwise send heartbeats and process the replies. -/
def Node.heatbeatTimeout (n : Node) (replies : List (Int × Bool)) :
    Option (Node × List TimerCmd) :=
  if n.stopped then some (n, [])
  else if n.isNotLeader then none
  else n.heartbeatReplyLoop replies []

/-- `AppendEntries` from node.go.  Entries `nil` and the empty slice take the
same heartbeat branch in Go, so `entries` is a plain list.  Returns the new
node, the timer events and the reply `(currentTerm, success)`. -/
def Node.AppendEntries (n : Node) (term leaderID prevLogIndex prevLogTermin : Int)
    (entries : List String) (leaderCommit : Int) :
    Option (Node × List TimerCmd × (Int × Bool)) :=
  if n.stopped then
    some (n, [], (n.currentTerm, false))
  else if term < n.currentTerm then
    some (n, [], (n.currentTerm, false))
  else
    -- shared tail of the handler: heartbeat resets the election timer,
    -- a non-empty entries list only logs (log replication is a todo in Go)
    let finish : Node → Option (Node × List TimerCmd × (Int × Bool)) :=
      fun n2 =>
        if entries.isEmpty then
          some (n2, [TimerCmd.electionReset], (n2.currentTerm, true))
        else
          some (n2, [], (n2.currentTerm, true))
    if n.currentTerm < term then
      let n1 : Node := { n with currentTerm := term }
      if n1.isLeader || n1.isCandidate then
        match n1.switchToFollower with
        | some p => some (p.1, p.2, (p.1.currentTerm, false))
        | none => none
      else
        finish n1
    else
      finish n

/-- `RequestVote` from node.go.  Returns the new node, the timer events and
the reply `(currentTerm, voteGranted)`. -/
def Node.RequestVote (n : Node) (term candidateID lastLogIndex lastLogTerm : Int) :
    Option (Node × List TimerCmd × (Int × Bool)) :=
  if n.stopped then
    some (n, [], (n.currentTerm, false))
  else
    -- n.electionTimer.resetC <- true, unconditionally for live nodes
    let cmds : List TimerCmd := [TimerCmd.electionReset]
    if term < n.currentTerm then
      some (n, cmds, (n.currentTerm, false))
    else if n.votedFor.isSome && decide (term = n.currentTerm) then
      some (n, cmds, (n.currentTerm, false))
    else
      let step : Option (Node × List TimerCmd) :=
        if n.currentTerm < term then
          let n1 : Node := { n with currentTerm := term }
          if n1.isCandidate || n1.isLeader then
            match n1.switchToFollower with
            | some p => some (p.1, cmds ++ p.2)
            | none => none
          else
            some (n1, cmds)
        else
          some (n, cmds)
      match step with
      | some p =>
          some ({ p.1 with votedFor := some candidateID }, p.2,
                (p.1.currentTerm, true))
      | none => none

/-! ## Concrete sample nodes (used to exercise the theorems) -/

/-- A live FOLLOWER in a three-node cluster, current term 2, no vote cast. -/
def sampleFollower : Node :=
  { id := 0, statemachine := ⟨FOLLOWER⟩, currentTerm := 2, votedFor := none,
    cluster := ⟨[0, 1, 2]⟩, stopped := false }

/-- A live FOLLOWER alone in a single-node cluster. -/
def sampleSingle : Node :=
  { id := 0, statemachine := ⟨FOLLOWER⟩, currentTerm := 0, votedFor := none,
    cluster := ⟨[0]⟩, stopped := false }

/-- A live FOLLOWER that has already voted for node 7 in term 3. -/
def sampleVoted : Node :=
  { id := 0, statemachine := ⟨FOLLOWER⟩, currentTerm := 3, votedFor := some 7,
    cluster := ⟨[0, 1]⟩, stopped := false }

/-- A live LEADER of a three-node cluster in term 2. -/
def sampleLeader : Node :=
  { id := 0, statemachine := ⟨LEADER⟩, currentTerm := 2, votedFor := some 0,
    cluster := ⟨[0, 1, 2]⟩, stopped := false }

/-! ## Helper lemmas -/

/-- The tally loop of `executeElection`, started at `k`, counts the `true`
grant flags on top of `k`. -/
lemma foldl_grant_count (l : List Bool) (k : Nat) :
    l.foldl (fun acc v => if v then acc + 1 else acc) k = k + l.count true := by
  induction l generalizing k with
  | nil => simp
  | cons b t ih =>
      cases b <;> simp [List.count_cons, ih] <;> omega

/-- Closed form of `switchToFollower`: it always succeeds, forces the role to
FOLLOWER, and stops the heartbeat timer exactly when the node was LEADER. -/
lemma switchToFollower_eq (n : Node) :
    n.switchToFollower =
      some ({ n with statemachine := ⟨FOLLOWER⟩ },
            if n.isLeader then [TimerCmd.heartbeatStop] else []) := by
  obtain ⟨i, ⟨cur⟩, t, v, c, s⟩ := n
  cases cur <;> rfl

/-- A live non-leader's election timeout runs `startElectionProcess`. -/
lemma electionTimeout_live (n : Node) (replies : List (Int × Bool))
    (hs : n.stopped = false) (hnl : n.statemachine.current ≠ LEADER) :
    n.electionTimeout replies = n.startElectionProcess replies := by
  unfold Node.electionTimeout
  rw [hs]
  simp [Node.isLeader, hnl]

/-- `startElectionProcess` of a FOLLOWER or CANDIDATE factors through the
prepared candidate state: term incremented, role CANDIDATE, `votedFor`
cleared, before `executeElection` consumes the peer replies. -/
lemma startElectionProcess_eq (n : Node) (replies : List (Int × Bool))
    (h : n.statemachine.current = FOLLOWER ∨ n.statemachine.current = CANDIDATE) :
    n.startElectionProcess replies =
      (let res := ({ n with currentTerm := n.currentTerm + 1, statemachine := ⟨CANDIDATE⟩, votedFor := none } : Node).executeElection replies
       if res.2 then res.1.switchToLeader
       else
         match res.1.statemachine.Next FOLLOWER with
         | none => none
         | some sm2 => some ({ res.1 with statemachine := sm2 },
                             [TimerCmd.electionReset])) := by
  obtain ⟨i, ⟨cur⟩, t, v, c, s⟩ := n
  cases cur
  · rfl
  · rfl
  · rcases h with h | h <;> simp at h

/-- Once the node processing heartbeat replies is a FOLLOWER, the rest of the
reply loop changes nothing and emits no further timer events. -/
lemma heartbeatReplyLoop_follower (replies : List (Int × Bool)) (n : Node)
    (cmds : List TimerCmd) (hf : n.statemachine.current = FOLLOWER) :
    n.heartbeatReplyLoop replies cmds = some (n, cmds) := by
  induction replies generalizing cmds with
  | nil => rfl
  | cons r rest ih =>
      have hsm : n.statemachine = ⟨FOLLOWER⟩ := by rw [← hf]
      have hn : ({ n with statemachine := ⟨FOLLOWER⟩ } : Node) = n := by
        rw [← hsm]
      have hL : n.isLeader = false := by simp [Node.isLeader, hf]
      unfold Node.heartbeatReplyLoop
      by_cases h : n.currentTerm < r.1
      · rw [if_pos h, switchToFollower_eq, hL]
        simp only [if_false, Bool.false_eq_true, List.append_nil, hn]
        exact ih cmds
      · rw [if_neg h]
        exact ih cmds

/-- A LEADER that sees a heartbeat reply term above its own is demoted by
the reply loop: the loop succeeds, ends in FOLLOWER, and a heartbeat-stop
event is emitted. -/
lemma heartbeatReplyLoop_leader (replies : List (Int × Bool)) (n : Node)
    (cmds : List TimerCmd) (hl : n.statemachine.current = LEADER)
    (hr : ∃ r ∈ replies, n.currentTerm < r.1) :
    ∃ cmds', n.heartbeatReplyLoop replies cmds =
        some ({ n with statemachine := ⟨FOLLOWER⟩ }, cmds') ∧
      TimerCmd.heartbeatStop ∈ cmds' := by
  induction replies generalizing cmds with
  | nil => simp at hr
  | cons r rest ih =>
      have hL : n.isLeader = true := by simp [Node.isLeader, hl]
      unfold Node.heartbeatReplyLoop
      by_cases h : n.currentTerm < r.1
      · rw [if_pos h, switchToFollower_eq, hL]
        simp only [if_true]
        rw [heartbeatReplyLoop_follower rest _ _ rfl]
        exact ⟨cmds ++ [TimerCmd.heartbeatStop], rfl, by simp⟩
      · rw [if_neg h]
        rcases hr with ⟨x, hx, hxt⟩
        rcases List.mem_cons.mp hx with hx | hx
        · exact absurd (hx ▸ hxt) h
        · exact ih cmds ⟨x, hx, hxt⟩

/-- A live node that has already voted denies any vote request carrying its
own current term, without changing any state. -/
lemma RequestVote_denied_already_voted (m : Node) (c li2 lt2 : Int)
    (hs : m.stopped = false) (hv : m.votedFor.isSome = true) :
    m.RequestVote m.currentTerm c li2 lt2 =
      some (m, [TimerCmd.electionReset], (m.currentTerm, false)) := by
  unfold Node.RequestVote
  rw [hs]
  simp [hv]

/-- Shape of a granted `RequestVote`: the reply carries the request's term
(which the node has adopted), and the vote is recorded for the candidate. -/
lemma RequestVote_grant_shape (n : Node) (term cand li lt : Int)
    (hs : n.stopped = false) (hge : ¬ term < n.currentTerm)
    (hv : ¬ (n.votedFor.isSome = true ∧ term = n.currentTerm)) :
    ∃ sm cmds, n.RequestVote term cand li lt =
      some ({ n with statemachine := sm, currentTerm := term, votedFor := some cand },
            cmds, (term, true)) := by
  have h0 : ¬ (n.stopped = true) := by simp [hs]
  have hb : ¬ (n.votedFor.isSome && decide (term = n.currentTerm)) = true := by
    simpa using hv
  unfold Node.RequestVote
  rw [if_neg h0, if_neg hge, if_neg hb]
  by_cases hlt : n.currentTerm < term
  · rw [if_pos hlt]
    by_cases hcl : (({ n with currentTerm := term } : Node).isCandidate ||
        ({ n with currentTerm := term } : Node).isLeader) = true
    · rw [if_pos hcl, switchToFollower_eq]
      exact ⟨⟨FOLLOWER⟩,
        [TimerCmd.electionReset] ++
          (if ({ n with currentTerm := term } : Node).isLeader then
            [TimerCmd.heartbeatStop] else []), rfl⟩
    · rw [if_neg hcl]
      exact ⟨n.statemachine, [TimerCmd.electionReset], rfl⟩
  · have heq : term = n.currentTerm := le_antisymm (not_lt.mp hlt) (not_lt.mp hge)
    rw [if_neg hlt]
    subst heq
    exact ⟨n.statemachine, [TimerCmd.electionReset], rfl⟩

/-- Fields of the node after a granted `RequestVote`: still live, vote
recorded for the candidate, current term equal to the request's term. -/
lemma RequestVote_granted_fields (n n' : Node) (term cand li lt t : Int)
    (cmds : List TimerCmd) (hs : n.stopped = false)
    (h1 : n.RequestVote term cand li lt = some (n', cmds, (t, true))) :
    n'.stopped = false ∧ n'.votedFor = some cand ∧ n'.currentTerm = term := by
  by_cases hge : term < n.currentTerm
  · simp [Node.RequestVote, hs, hge] at h1
  · by_cases hv : n.votedFor.isSome = true ∧ term = n.currentTerm
    · rcases hv with ⟨hv1, hv2⟩
      subst hv2
      simp [Node.RequestVote, hs, hv1] at h1
    · obtain ⟨sm, cmds2, heq⟩ := RequestVote_grant_shape n term cand li lt hs hge hv
      rw [heq] at h1
      simp only [Option.some.injEq, Prod.mk.injEq] at h1
      rw [← h1.1]
      exact ⟨hs, rfl, rfl⟩

/-! ## Claims -/

/-- Claim C1: an election round run by `executeElection` is won iff the self
vote plus the number of granting peers reaches `⌊N/2⌋ + 1`, with `N` the full
cluster size including the node; in particular, in a single-node cluster an
election timeout yields a won election with no peer calls and the node
becomes LEADER. -/
theorem raft_C1 (n : Node) (replies : List (Int × Bool)) :
    ((n.executeElection replies).2 = true ↔
      n.cluster.allNodes.length / 2 + 1 ≤ 1 + (replies.map Prod.snd).count true) ∧
    (n.stopped = false → n.statemachine.current = FOLLOWER →
      n.cluster.allNodes = [n.id] →
      n.cluster.GetRemoteFollowers n.id = [] ∧
      n.electionTimeout [] =
        some ({ n with currentTerm := n.currentTerm + 1, statemachine := ⟨LEADER⟩, votedFor := some n.id },
              [TimerCmd.heartbeatReset, TimerCmd.electionStop])) := by
  constructor
  · simp only [Node.executeElection, foldl_grant_count, decide_eq_true_eq]
  · intro hs hf hc
    constructor
    · unfold Cluster.GetRemoteFollowers
      rw [hc]
      simp
    · rw [electionTimeout_live n [] hs (by simp [hf]),
        startElectionProcess_eq n [] (Or.inl hf)]
      have hwin : (({ n with currentTerm := n.currentTerm + 1, statemachine := ⟨CANDIDATE⟩, votedFor := none } : Node).executeElection []).2 = true := by
        simp [Node.executeElection, hc]
      simp only [hwin, if_true]
      simp [Node.executeElection, Node.switchToLeader, Statemachine.Next,
        Statemachine.isValid, validTransitions]

/-- Witness for C1 at the concrete single-node cluster `sampleSingle`. -/
theorem raft_C1_witness :
    sampleSingle.stopped = false ∧
    sampleSingle.statemachine.current = FOLLOWER ∧
    sampleSingle.cluster.allNodes = [sampleSingle.id] ∧
    sampleSingle.cluster.GetRemoteFollowers sampleSingle.id = [] ∧
    sampleSingle.electionTimeout [] =
      some ({ sampleSingle with currentTerm := sampleSingle.currentTerm + 1, statemachine := ⟨LEADER⟩, votedFor := some sampleSingle.id },
            [TimerCmd.heartbeatReset, TimerCmd.electionStop]) :=
  ⟨rfl, rfl, rfl, ((raft_C1 sampleSingle []).2 rfl rfl rfl).1,
    ((raft_C1 sampleSingle []).2 rfl rfl rfl).2⟩

/-- Claim C2 counterexample: an `AppendEntries` call with a strictly greater
term (4 > 3) begins a new term on the node, yet `votedFor` is not reset to
none — the vote for node 7 cast in term 3 survives into term 4. -/
theorem raft_C2_counterexample :
    sampleVoted.AppendEntries 4 1 0 0 [] 0 =
      some ({ sampleVoted with currentTerm := 4 }, [TimerCmd.electionReset], (4, true)) ∧
    ({ sampleVoted with currentTerm := 4 } : Node).votedFor = some 7 := by
  decide

/-- Claim C2 (amended): `votedFor` is reset to none only when
`startElectionProcess` begins a new term; when `RequestVote` adopts a
strictly greater term it overwrites `votedFor` with the granting candidate
(no intermediate reset), and when `AppendEntries` adopts a strictly greater
term `votedFor` is left unchanged, carrying the old term's vote into the new
term. -/
theorem raft_C2 (n : Node) (replies : List (Int × Bool))
    (term cand li lt lid pli plt lc : Int) (entries : List String)
    (hrole : n.statemachine.current = FOLLOWER ∨ n.statemachine.current = CANDIDATE)
    (hs : n.stopped = false) (hgt : n.currentTerm < term) :
    n.startElectionProcess replies =
      (let res := ({ n with currentTerm := n.currentTerm + 1, statemachine := ⟨CANDIDATE⟩, votedFor := none } : Node).executeElection replies
       if res.2 then res.1.switchToLeader
       else
         match res.1.statemachine.Next FOLLOWER with
         | none => none
         | some sm2 => some ({ res.1 with statemachine := sm2 },
                             [TimerCmd.electionReset])) ∧
    (∃ sm cmds, n.RequestVote term cand li lt =
      some ({ n with statemachine := sm, currentTerm := term, votedFor := some cand },
            cmds, (term, true))) ∧
    (∃ n2 cmds res2,
      n.AppendEntries term lid pli plt entries lc = some (n2, cmds, res2) ∧
      n2.votedFor = n.votedFor ∧ n2.currentTerm = term) := by
  refine ⟨startElectionProcess_eq n replies hrole,
    RequestVote_grant_shape n term cand li lt hs (by omega)
      (by rintro ⟨-, h⟩; omega), ?_⟩
  have h0 : ¬ (n.stopped = true) := by simp [hs]
  have h1 : ¬ term < n.currentTerm := by omega
  simp only [Node.AppendEntries]
  rw [if_neg h0, if_neg h1, if_pos hgt]
  by_cases h3 : (({ n with currentTerm := term } : Node).isLeader ||
      ({ n with currentTerm := term } : Node).isCandidate) = true
  · rw [if_pos h3, switchToFollower_eq]
    exact ⟨_, _, _, rfl, rfl, rfl⟩
  · rw [if_neg h3]
    by_cases he : entries.isEmpty
    · rw [if_pos he]
      exact ⟨_, _, _, rfl, rfl, rfl⟩
    · rw [if_neg he]
      exact ⟨_, _, _, rfl, rfl, rfl⟩

/-- Witness for the amended C2 at `sampleVoted` with request term 4. -/
theorem raft_C2_witness :
    (sampleVoted.statemachine.current = FOLLOWER ∨
      sampleVoted.statemachine.current = CANDIDATE) ∧
    sampleVoted.stopped = false ∧
    sampleVoted.currentTerm < (4 : Int) ∧
    (sampleVoted.startElectionProcess [] =
      (let res := ({ sampleVoted with currentTerm := sampleVoted.currentTerm + 1, statemachine := ⟨CANDIDATE⟩, votedFor := none } : Node).executeElection []
       if res.2 then res.1.switchToLeader
       else
         match res.1.statemachine.Next FOLLOWER with
         | none => none
         | some sm2 => some ({ res.1 with statemachine := sm2 },
                             [TimerCmd.electionReset])) ∧
    (∃ sm cmds, sampleVoted.RequestVote 4 9 0 0 =
      some ({ sampleVoted with statemachine := sm, currentTerm := 4, votedFor := some 9 },
            cmds, (4, true))) ∧
    (∃ n2 cmds res2,
      sampleVoted.AppendEntries 4 1 0 0 [] 0 = some (n2, cmds, res2) ∧
      n2.votedFor = sampleVoted.votedFor ∧ n2.currentTerm = 4)) :=
  ⟨Or.inl rfl, rfl, by decide,
    raft_C2 sampleVoted [] 4 9 0 0 1 0 0 0 [] (Or.inl rfl) rfl (by decide)⟩

/-- Claim C3 (code bug): `Stop` is specified to disarm both timers and force
the role to FOLLOWER in every role, but on a node whose role is already
FOLLOWER the unconditional `statemachine.Next(FOLLOWER)` hits the illegal
FOLLOWER→FOLLOWER transition and panics (modelled as `none`), so `Stop`
aborts instead of completing. -/
theorem raft_C3_bug :
    sampleFollower.statemachine.current = FOLLOWER ∧
    sampleFollower.Stop = none := by
  decide

/-- Claim C4: the role state machine's `Next` stores the requested role (and
does nothing else) exactly when the pair is in the table FOLLOWER→CANDIDATE,
CANDIDATE→{FOLLOWER, CANDIDATE, LEADER}, LEADER→FOLLOWER, and aborts
(panics, modelled as `none`) on every other pair — so under the precondition
that only table transitions are requested, the abort branch is unreachable. -/
theorem raft_C4 : ∀ cur next : State,
    (Statemachine.mk cur).Next next =
      (if (cur, next) ∈ [(FOLLOWER, CANDIDATE), (CANDIDATE, FOLLOWER),
          (CANDIDATE, CANDIDATE), (CANDIDATE, LEADER), (LEADER, FOLLOWER)]
       then some (Statemachine.mk next) else none) := by
  intro cur next
  cases cur <;> cases next <;> decide

/-- Claim C5: an election-timer fire on a live non-LEADER node increments
`currentTerm` by exactly one, moves the role (FOLLOWER or CANDIDATE) to
CANDIDATE and clears `votedFor` — the explicit prepared state the run
factors through — and then sets `votedFor` to the node's own id, all before
the peer replies are consumed. -/
theorem raft_C5 (n : Node) (replies : List (Int × Bool))
    (hs : n.stopped = false) (hnl : n.statemachine.current ≠ LEADER) :
    ∃ res : Node × Bool,
      res = ({ n with currentTerm := n.currentTerm + 1, statemachine := ⟨CANDIDATE⟩, votedFor := none } : Node).executeElection replies ∧
      n.electionTimeout replies =
        (if res.2 then res.1.switchToLeader
         else
           match res.1.statemachine.Next FOLLOWER with
           | none => none
           | some sm2 => some ({ res.1 with statemachine := sm2 }, [TimerCmd.electionReset])) ∧
      res.1.currentTerm = n.currentTerm + 1 ∧
      res.1.statemachine.current = CANDIDATE ∧
      res.1.votedFor = some n.id := by
  have hrole : n.statemachine.current = FOLLOWER ∨ n.statemachine.current = CANDIDATE := by
    cases h : n.statemachine.current
    · exact Or.inl rfl
    · exact Or.inr rfl
    · exact absurd h hnl
  refine ⟨_, rfl, ?_, rfl, rfl, rfl⟩
  rw [electionTimeout_live n replies hs hnl, startElectionProcess_eq n replies hrole]

/-- Witness for C5 at `sampleFollower` with one denying peer reply. -/
theorem raft_C5_witness :
    sampleFollower.stopped = false ∧
    sampleFollower.statemachine.current ≠ LEADER ∧
    ∃ res : Node × Bool,
      res = ({ sampleFollower with currentTerm := sampleFollower.currentTerm + 1, statemachine := ⟨CANDIDATE⟩, votedFor := none } : Node).executeElection [(1, false)] ∧
      sampleFollower.electionTimeout [(1, false)] =
        (if res.2 then res.1.switchToLeader
         else
           match res.1.statemachine.Next FOLLOWER with
           | none => none
           | some sm2 => some ({ res.1 with statemachine := sm2 }, [TimerCmd.electionReset])) ∧
      res.1.currentTerm = sampleFollower.currentTerm + 1 ∧
      res.1.statemachine.current = CANDIDATE ∧
      res.1.votedFor = some sampleFollower.id :=
  ⟨rfl, by decide, raft_C5 sampleFollower [(1, false)] rfl (by decide)⟩

/-- Claim C6: during a live LEADER's heartbeat cycle, a peer reply carrying a
term strictly greater than the leader's current term demotes the leader to
FOLLOWER (changing nothing else) and stops the heartbeat timer. -/
theorem raft_C6 (n : Node) (replies : List (Int × Bool))
    (hs : n.stopped = false) (hl : n.statemachine.current = LEADER)
    (hr : ∃ r ∈ replies, n.currentTerm < r.1) :
    ∃ cmds, n.heatbeatTimeout replies =
        some ({ n with statemachine := ⟨FOLLOWER⟩ }, cmds) ∧
      TimerCmd.heartbeatStop ∈ cmds := by
  have h0 : ¬ (n.stopped = true) := by simp [hs]
  have hnl : ¬ (n.isNotLeader = true) := by
    simp [Node.isNotLeader, Node.isLeader, hl]
  unfold Node.heatbeatTimeout
  rw [if_neg h0, if_neg hnl]
  exact heartbeatReplyLoop_leader replies n [] hl hr

/-- Witness for C6 at `sampleLeader` with a reply reporting term 5 > 2. -/
theorem raft_C6_witness :
    sampleLeader.stopped = false ∧
    sampleLeader.statemachine.current = LEADER ∧
    (∃ r ∈ [((5 : Int), true)], sampleLeader.currentTerm < r.1) ∧
    ∃ cmds, sampleLeader.heatbeatTimeout [(5, true)] =
        some ({ sampleLeader with statemachine := ⟨FOLLOWER⟩ }, cmds) ∧
      TimerCmd.heartbeatStop ∈ cmds :=
  ⟨rfl, rfl, by decide, raft_C6 sampleLeader [(5, true)] rfl rfl (by decide)⟩

/-- Claim C7: if a live node grants a `RequestVote`, the identical repeated
call is denied with no state change — and more generally any `RequestVote`
carrying the node's current term while `votedFor` is set is denied — so a
node never grants two votes in the same term. -/
theorem raft_C7 (n n' : Node) (term cand li lt t : Int) (cmds : List TimerCmd)
    (hs : n.stopped = false)
    (h1 : n.RequestVote term cand li lt = some (n', cmds, (t, true))) :
    n'.RequestVote term cand li lt =
      some (n', [TimerCmd.electionReset], (n'.currentTerm, false)) ∧
    ∀ m : Node, m.stopped = false → m.votedFor.isSome = true →
      ∀ c li2 lt2 : Int, m.RequestVote m.currentTerm c li2 lt2 =
        some (m, [TimerCmd.electionReset], (m.currentTerm, false)) := by
  obtain ⟨hs', hv', ht'⟩ := RequestVote_granted_fields n n' term cand li lt t cmds hs h1
  constructor
  · have hden := RequestVote_denied_already_voted n' cand li lt hs' (by rw [hv']; rfl)
    rw [← ht']
    exact hden
  · intro m hm1 hm2 c li2 lt2
    exact RequestVote_denied_already_voted m c li2 lt2 hm1 hm2

/-- Witness for C7: `sampleFollower` grants term 3 to candidate 7, and the
repeated identical request is denied. -/
theorem raft_C7_witness :
    sampleFollower.stopped = false ∧
    sampleFollower.RequestVote 3 7 0 0 =
      some ({ sampleFollower with currentTerm := 3, votedFor := some 7 },
            [TimerCmd.electionReset], (3, true)) ∧
    ({ sampleFollower with currentTerm := 3, votedFor := some 7 } : Node).RequestVote 3 7 0 0 =
      some ({ sampleFollower with currentTerm := 3, votedFor := some 7 },
            [TimerCmd.electionReset],
            (({ sampleFollower with currentTerm := 3, votedFor := some 7 } : Node).currentTerm, false)) :=
  ⟨rfl, by decide,
    (raft_C7 sampleFollower { sampleFollower with currentTerm := 3, votedFor := some 7 }
      3 7 0 0 3 [TimerCmd.electionReset] rfl (by decide)).1⟩

/-- Claim C8: a live node answers an `AppendEntries` whose term is strictly
below its own with `(ownTerm, false)`, leaves `currentTerm`, `votedFor` and
the role untouched, and does not reset its election timer. -/
theorem raft_C8 (n : Node) (term lid pli plt lc : Int) (entries : List String)
    (hs : n.stopped = false) (ht : term < n.currentTerm) :
    n.AppendEntries term lid pli plt entries lc =
      some (n, [], (n.currentTerm, false)) := by
  have h0 : ¬ (n.stopped = true) := by simp [hs]
  simp only [Node.AppendEntries]
  rw [if_neg h0, if_pos ht]

/-- Witness for C8 at `sampleFollower` (term 2) with a stale term-1 call. -/
theorem raft_C8_witness :
    sampleFollower.stopped = false ∧
    (1 : Int) < sampleFollower.currentTerm ∧
    sampleFollower.AppendEntries 1 9 0 0 [] 0 =
      some (sampleFollower, [], (sampleFollower.currentTerm, false)) :=
  ⟨rfl, by decide, raft_C8 sampleFollower 1 9 0 0 0 [] rfl (by decide)⟩

/-- Claim C9: the election tally ignores peer reply terms — any two reply
lists with the same grant flags (in particular one where a higher term is
replaced by an equal term) yield identical results, and the fan-out leaves
`currentTerm` and the role unchanged while `votedFor` holds the self vote. -/
theorem raft_C9 (n : Node) (replies replies' : List (Int × Bool))
    (h : replies.map Prod.snd = replies'.map Prod.snd) :
    n.executeElection replies = n.executeElection replies' ∧
    (n.executeElection replies).1.currentTerm = n.currentTerm ∧
    (n.executeElection replies).1.statemachine = n.statemachine ∧
    (n.executeElection replies).1.votedFor = some n.id := by
  refine ⟨?_, rfl, rfl, rfl⟩
  unfold Node.executeElection
  rw [h]

/-- Witness for C9: a reply with term 5 (above `sampleFollower`'s term 2) is
interchangeable with one carrying the equal term 2. -/
theorem raft_C9_witness :
    ([((5 : Int), true)].map Prod.snd = [((2 : Int), true)].map Prod.snd) ∧
    sampleFollower.executeElection [(5, true)] =
      sampleFollower.executeElection [(2, true)] ∧
    (sampleFollower.executeElection [(5, true)]).1.currentTerm = sampleFollower.currentTerm ∧
    (sampleFollower.executeElection [(5, true)]).1.statemachine = sampleFollower.statemachine ∧
    (sampleFollower.executeElection [(5, true)]).1.votedFor = some sampleFollower.id :=
  ⟨rfl, (raft_C9 sampleFollower [(5, true)] [(2, true)] rfl).1,
    (raft_C9 sampleFollower [(5, true)] [(2, true)] rfl).2.1,
    (raft_C9 sampleFollower [(5, true)] [(2, true)] rfl).2.2.1,
    (raft_C9 sampleFollower [(5, true)] [(2, true)] rfl).2.2.2⟩

/-- Claim C10: a live FOLLOWER answering an `AppendEntries` with term at
least its own and a non-empty entries list returns `(currentTerm, true)`
unconditionally — no log-consistency check influences the result — and does
not reset the election timer. -/
theorem raft_C10 (n : Node) (term lid pli plt lc : Int) (entries : List String)
    (hs : n.stopped = false) (hf : n.statemachine.current = FOLLOWER)
    (ht : n.currentTerm ≤ term) (he : entries ≠ []) :
    n.AppendEntries term lid pli plt entries lc =
      some ({ n with currentTerm := term }, [], (term, true)) := by
  have h0 : ¬ (n.stopped = true) := by simp [hs]
  have h1 : ¬ term < n.currentTerm := not_lt.mpr ht
  have hL : ({ n with currentTerm := term } : Node).isLeader = false := by
    simp [Node.isLeader, hf]
  have hC : ({ n with currentTerm := term } : Node).isCandidate = false := by
    simp [Node.isCandidate, hf]
  simp only [Node.AppendEntries]
  rw [if_neg h0, if_neg h1]
  by_cases h2 : n.currentTerm < term
  · rw [if_pos h2, hL, hC]
    cases entries with
    | nil => exact absurd rfl he
    | cons a as => rfl
  · have heq : n.currentTerm = term := le_antisymm ht (not_lt.mp h2)
    rw [if_neg h2]
    cases entries with
    | nil => exact absurd rfl he
    | cons a as =>
        rw [← heq]
        rfl

/-- Witness for C10 at `sampleFollower` with term 4 and one log entry. -/
theorem raft_C10_witness :
    sampleFollower.stopped = false ∧
    sampleFollower.statemachine.current = FOLLOWER ∧
    sampleFollower.currentTerm ≤ (4 : Int) ∧
    (["x"] : List String) ≠ [] ∧
    sampleFollower.AppendEntries 4 1 0 0 ["x"] 0 =
      some ({ sampleFollower with currentTerm := 4 }, [], (4, true)) :=
  ⟨rfl, rfl, by decide, by decide,
    raft_C10 sampleFollower 4 1 0 0 0 ["x"] rfl rfl (by decide) (by decide)⟩

end Raft
